import Mathlib

/-!
# Credential and session lifecycle subsystem: formal model

Shallow embedding of the authentication core of the focus-gps backend:
the authentication controller (login / refresh / logout handlers), the
User model (schema fields and its refresh-token methods), the `protect`
middleware, and the user-controller read paths.

Cryptographic primitives (HMAC-signed JWTs, bcrypt, SHA-256) are modelled
as idealized collision-free constructors of an inductive universe `Val` of
runtime string values: distinct inputs yield distinct digests and
signatures.  Wall-clock time is a natural number of seconds (the unit of
JWT `iat`/`exp` claims).  All definitions are executable.
-/

namespace FocusGps

/-- Runtime string-typed values flowing through the handlers: plain
strings, serialized signed JWTs (`jwt.sign` output), bcrypt hashes
(`bcrypt.hash` output, salt made explicit) and SHA-256 hex digests
(`crypto.createHash('sha256')...digest('hex')` output).  Constructors are
injective: this is the idealization that the JWT signature and both
digests are collision-free and unforgeable. -/
inductive Val where
  | raw (s : String)
  | jwt (key : Nat) (sub : Nat) (iat : Nat) (exp : Nat)
  | bcryptDigest (inner : Val) (salt : Nat)
  | sha256Digest (inner : Val)
deriving DecidableEq

/-- Deployment secret `process.env.JWT_SECRET` (signs access tokens). -/
def jwtSecret : Nat := 0

/-- Deployment secret `process.env.REFRESH_TOKEN_SECRET` (signs refresh
tokens); a value distinct from `jwtSecret`. -/
def refreshTokenSecret : Nat := 1

/-- Model of `jwt.sign({ id }, key, { expiresIn })`: a signed token
carrying the subject id, issued-at time and expiry `now + expiresIn`. -/
def jwtSign (sub : Nat) (key : Nat) (now : Nat) (expiresIn : Nat) : Val :=
  .jwt key sub now (now + expiresIn)

/-- Error kinds thrown by `jwt.verify`: `TokenExpiredError` versus every
other verification failure (`JsonWebTokenError`: malformed token, invalid
signature, wrong key). -/
inductive VerifyErr where
  | tokenExpired
  | invalid
deriving DecidableEq

/-- Model of `jwt.verify(token, key)` at current time `now`: the
signature is checked first (a token not signed with `key` is rejected as
invalid regardless of its expiry), then the expiry claim; the library
reports expiry when `now >= exp`.  On success the decoded payload's
subject id is returned. -/
def jwtVerify (tok : Val) (key : Nat) (now : Nat) : Except VerifyErr Nat :=
  match tok with
  | .jwt k sub _ e =>
      if k ≠ key then .error .invalid
      else if e ≤ now then .error .tokenExpired
      else .ok sub
  | _ => .error .invalid

/-- Model of `bcrypt.hash(s, rounds)`: a salted one-way digest; the salt
captures the randomness of a particular invocation. -/
def bcryptHash (s : Val) (salt : Nat) : Val :=
  .bcryptDigest s salt

/-- Model of `bcrypt.compare(s, h)`: re-hashes `s` with the salt embedded
in `h` and compares; true exactly when `h` is a bcrypt digest of `s`.
When `h` is not a bcrypt hash at all (e.g. the empty string used as the
cleared-slot marker), bcryptjs returns false. -/
def bcryptCompare (s h : Val) : Bool :=
  match h with
  | .bcryptDigest inner _ => s == inner
  | _ => false

/-- Model of `crypto.createHash('sha256').update(token).digest('hex')`. -/
def sha256Hex (s : Val) : Val :=
  .sha256Digest s

/-- An account record (Mongoose `User` document).  Schema fields: `name`,
`email`, `passwordHash`, `role`, and `refreshTokenHash` (declared with
`select: false`).  The field `refreshToken` is the *undeclared* field the
authentication controller writes its bcrypt digest into; `none` models an
absent (undefined) field, `some (.raw "")` the slot cleared to `''`. -/
structure UserRec where
  id : Nat
  name : String
  email : String
  passwordHash : Val
  role : String
  refreshToken : Option Val := none
  refreshTokenHash : Option Val := none
deriving DecidableEq

/-- The user collection. -/
abbrev DB := List UserRec

/-- Model of `User.findById(id)`. -/
def findById (db : DB) (id : Nat) : Option UserRec :=
  db.find? (fun v => v.id == id)

/-- Model of `User.findOne({ name })`. -/
def findByName (db : DB) (n : String) : Option UserRec :=
  db.find? (fun v => v.name == n)

/-- Model of `user.save()`: single-document overwrite of the record(s)
with the saved document's id. -/
def saveUser (db : DB) (w : UserRec) : DB :=
  db.map (fun v => if v.id = w.id then w else v)

/-- Model of `userSchema.methods.matchPassword`: bcrypt comparison of the
entered password against the stored credential hash. -/
def UserRec.matchPassword (u : UserRec) (entered : String) : Bool :=
  bcryptCompare (.raw entered) u.passwordHash

/-- Model of `userSchema.methods.setRefreshToken` (User model): stores
the SHA-256 hex digest of the token in the schema field
`refreshTokenHash`. -/
def UserRec.setRefreshToken (u : UserRec) (token : Val) : UserRec :=
  { u with refreshTokenHash := some (sha256Hex token) }

/-- Model of `userSchema.methods.isRefreshTokenValid` (User model):
recomputes the SHA-256 hex digest of the token and compares it by exact
equality to the schema field `refreshTokenHash` (false when that field is
undefined). -/
def UserRec.isRefreshTokenValid (u : UserRec) (token : Val) : Bool :=
  match u.refreshTokenHash with
  | some h => sha256Hex token == h
  | none => false

/-- Model of `generateAccessToken(id)`: 15-minute token signed with
`JWT_SECRET`. -/
def generateAccessToken (id : Nat) (now : Nat) : Val :=
  jwtSign id jwtSecret now (15 * 60)

/-- Model of `generateRefreshToken(id)`: 7-day token signed with
`REFRESH_TOKEN_SECRET`. -/
def generateRefreshToken (id : Nat) (now : Nat) : Val :=
  jwtSign id refreshTokenSecret now (7 * 24 * 60 * 60)

/-- Model of the `validateLogin` express-validator chain: username
trimmed non-empty (that is, it contains a non-whitespace character) and
password non-empty. -/
def validateLogin (username password : String) : Bool :=
  username.data.any (fun c => !c.isWhitespace) && !(password.data.isEmpty)

/-- Outcome of the `loginUser` handler: a 400 validation error, a 200
body `{_id, name, email, role, token}` plus the refresh-token cookie, or
an error response with its status code and message. -/
inductive LoginResult where
  | validationError
  | ok (uid : Nat) (name email role : String) (accessToken : Val) (refreshCookie : Val)
  | failure (status : Nat) (message : String)
deriving DecidableEq

/-- Model of the `loginUser` handler.  Looks the account up by username;
when found and the password matches, mints the access and refresh tokens,
stores `bcrypt.hash(refreshToken, 10)` in the account's `refreshToken`
field and saves; otherwise answers 401 `'Invalid username or password'`
(one shared branch for unknown username and wrong password).  `salt` is
the bcrypt salt drawn for this invocation. -/
def loginUser (db : DB) (username password : String) (now salt : Nat) :
    LoginResult × DB :=
  if !(validateLogin username password) then (.validationError, db)
  else
    match findByName db username with
    | some u =>
        if u.matchPassword password then
          let accessToken := generateAccessToken u.id now
          let refreshToken := generateRefreshToken u.id now
          let hashed := bcryptHash refreshToken salt
          (.ok u.id u.name u.email u.role accessToken refreshToken,
            saveUser db { u with refreshToken := some hashed })
        else (.failure 401 "Invalid username or password", db)
    | none => (.failure 401 "Invalid username or password", db)

/-- Outcome of the `refreshAccessToken` handler, one constructor per
response site: 401 no cookie; 403 user not found; 403 reuse detected
(slot cleared, cookie cleared); 200 with new pair; 403 `TokenExpiredError`
with `expired: true` (cookie cleared); 403 generic catch (cookie
cleared). -/
inductive RefreshResult where
  | noToken
  | userNotFound
  | reuseDetected
  | ok (uid : Nat) (name email role : String) (newAccessToken : Val) (newRefreshCookie : Val)
  | expiredToken
  | invalidToken
deriving DecidableEq

/-- Model of the `refreshAccessToken` handler.  Verifies the cookie with
`REFRESH_TOKEN_SECRET`; on `TokenExpiredError` answers 403
`'Refresh token expired'` and on any other verification failure 403
`'Forbidden: Invalid refresh token'` (both only clear the cookie).  On
success it loads the user, bcrypt-compares the presented token against
the stored `refreshToken` field (an undefined field makes
`bcrypt.compare` throw, landing in the same generic catch); a mismatch is
treated as reuse: the slot is overwritten with `''` and saved before the
403 is returned; a match rotates: a new pair is minted and the slot is
overwritten with the new bcrypt digest before the 200 is returned. -/
def refreshAccessToken (db : DB) (cookie : Option Val) (now salt : Nat) :
    RefreshResult × DB :=
  match cookie with
  | none => (.noToken, db)
  | some refreshToken =>
      match jwtVerify refreshToken refreshTokenSecret now with
      | .error .tokenExpired => (.expiredToken, db)
      | .error .invalid => (.invalidToken, db)
      | .ok decodedId =>
          match findById db decodedId with
          | none => (.userNotFound, db)
          | some user =>
              match user.refreshToken with
              | none => (.invalidToken, db)
              | some stored =>
                  if bcryptCompare refreshToken stored then
                    let newAccessToken := generateAccessToken user.id now
                    let newRefreshToken := generateRefreshToken user.id now
                    (.ok user.id user.name user.email user.role
                        newAccessToken newRefreshToken,
                      saveUser db
                        { user with refreshToken := some (bcryptHash newRefreshToken salt) })
                  else
                    (.reuseDetected,
                      saveUser db { user with refreshToken := some (.raw "") })

/-- HTTP status code of each `refreshAccessToken` outcome. -/
def refreshStatus : RefreshResult → Nat
  | .noToken => 401
  | .userNotFound => 403
  | .reuseDetected => 403
  | .ok _ _ _ _ _ _ => 200
  | .expiredToken => 403
  | .invalidToken => 403

/-- Response message of each error outcome of `refreshAccessToken`. -/
def refreshMessage : RefreshResult → Option String
  | .noToken => some "No refresh token provided in cookies"
  | .userNotFound => some "Forbidden: User not found with refresh token"
  | .reuseDetected => some "Forbidden: Invalid refresh token"
  | .ok _ _ _ _ _ _ => none
  | .expiredToken => some "Refresh token expired"
  | .invalidToken => some "Forbidden: Invalid refresh token"

/-- Whether the outcome carries the body flag `expired: true`. -/
def refreshExpiredFlag : RefreshResult → Bool
  | .expiredToken => true
  | _ => false

/-- Whether the handler calls `res.clearCookie('refreshToken', ...)` on
this outcome. -/
def refreshClearsCookie : RefreshResult → Bool
  | .reuseDetected => true
  | .expiredToken => true
  | .invalidToken => true
  | _ => false

/-- Error taxonomy of the specification (§7), keyed by defining
condition: `unauthorized` = no or garbled credential presented,
`sessionExpired` = valid signature past expiry, `forbiddenReuse` = valid
signature with stale or mismatched digest (session terminated),
`accountNotFound` = subject no longer resolves to an account. -/
inductive ErrKind where
  | unauthorized
  | sessionExpired
  | forbiddenReuse
  | accountNotFound
deriving DecidableEq

/-- Mapping of each `refreshAccessToken` outcome to the specification's
error taxonomy by its defining condition: `noToken` (no credential) and
`invalidToken` (garbled credential) are `unauthorized`; `expiredToken`
(valid signature, past expiry) is `sessionExpired`; `reuseDetected`
(valid signature, digest mismatch) is `forbiddenReuse`. -/
def refreshErrKind : RefreshResult → Option ErrKind
  | .noToken => some .unauthorized
  | .invalidToken => some .unauthorized
  | .expiredToken => some .sessionExpired
  | .reuseDetected => some .forbiddenReuse
  | .userNotFound => some .accountNotFound
  | .ok _ _ _ _ _ _ => none

/-- Model of the `logoutUser` handler: status code (always 204) and the
resulting state.  No cookie: 204 immediately.  A cookie that fails
`jwt.verify` (expired or garbled): clear the cookie, 204.  Otherwise load
the subject's record; when present overwrite its `refreshToken` slot with
`''` and save; clear the cookie; 204.  (The handler's preliminary
`findOne` by a freshly bcrypt-hashed cookie is a read whose result is
never used and is omitted.) -/
def logoutUser (db : DB) (cookie : Option Val) (now : Nat) : Nat × DB :=
  match cookie with
  | none => (204, db)
  | some refreshToken =>
      match jwtVerify refreshToken refreshTokenSecret now with
      | .error _ => (204, db)
      | .ok decodedId =>
          match findById db decodedId with
          | none => (204, db)
          | some u => (204, saveUser db { u with refreshToken := some (.raw "") })

/-- Outcome of the `protect` middleware: 401 no bearer token; 401
`'Not authorized, token invalid or expired'` (a single merged response
for every `jwt.verify` failure); 401 user not found; or success with the
sanitized `req.user`. -/
inductive ProtectResult where
  | noToken
  | verifyFailed
  | userNotFound
  | ok (uid : Nat) (name email role : String)
deriving DecidableEq

/-- Model of the `protect` middleware: extracts the bearer token,
verifies it with `JWT_SECRET` (any failure — expired or invalid — lands
in one catch answering 401 `'Not authorized, token invalid or expired'`),
then loads the user and attaches the sanitized `{id, name, email, role}`. -/
def protect (db : DB) (bearerToken : Option Val) (now : Nat) : ProtectResult :=
  match bearerToken with
  | none => .noToken
  | some token =>
      match jwtVerify token jwtSecret now with
      | .error _ => .verifyFailed
      | .ok id =>
          match findById db id with
          | none => .userNotFound
          | some u => .ok u.id u.name u.email u.role

/-- HTTP status code of each `protect` outcome. -/
def protectStatus : ProtectResult → Nat
  | .noToken => 401
  | .verifyFailed => 401
  | .userNotFound => 401
  | .ok _ _ _ _ => 200

/-- Response message of each error outcome of `protect`. -/
def protectMessage : ProtectResult → Option String
  | .noToken => some "Not authorized, no token provided"
  | .verifyFailed => some "Not authorized, token invalid or expired"
  | .userNotFound => some "User not found, authorization denied"
  | .ok _ _ _ _ => none

/-- Persisted document of a user as a field-name/value list: the schema
fields plus the controller-written `refreshToken` field when present. -/
def userDoc (u : UserRec) : List (String × Val) :=
  [("name", .raw u.name), ("email", .raw u.email),
   ("passwordHash", u.passwordHash), ("role", .raw u.role)]
  ++ (match u.refreshToken with
      | some v => [("refreshToken", v)]
      | none => [])
  ++ (match u.refreshTokenHash with
      | some v => [("refreshTokenHash", v)]
      | none => [])

/-- Schema fields declared with `select: false` (excluded from every
query result unless explicitly re-included with `'+field'`). -/
def selectFalseFields : List String := ["refreshTokenHash"]

/-- Mongoose projection: drop the explicitly excluded fields (`'-f'`)
and the `select: false` fields not explicitly re-included (`'+f'`). -/
def applySelect (doc : List (String × Val)) (excluded included : List String) :
    List (String × Val) :=
  doc.filter (fun kv =>
    !(excluded.contains kv.1) &&
      (!(selectFalseFields.contains kv.1) || included.contains kv.1))

/-- Model of the `getAllUsers` handler:
`User.find({}).select('-passwordHash -refreshToken')`. -/
def getAllUsers (db : DB) : List (List (String × Val)) :=
  db.map (fun u => applySelect (userDoc u) ["passwordHash", "refreshToken"] [])

/-- Model of the `getUserById` handler:
`User.findById(id).select('-passwordHash -refreshToken')`. -/
def getUserById (db : DB) (id : Nat) : Option (List (String × Val)) :=
  (findById db id).map (fun u => applySelect (userDoc u) ["passwordHash", "refreshToken"] [])

/-! ## Store lemmas -/

lemma findById_mem {db : DB} {id : Nat} {u : UserRec} (h : findById db id = some u) :
    u ∈ db :=
  List.mem_of_find?_eq_some h

lemma findById_id {db : DB} {id : Nat} {u : UserRec} (h : findById db id = some u) :
    u.id = id := by
  have := List.find?_some h
  simpa using this

lemma findByName_mem {db : DB} {n : String} {u : UserRec} (h : findByName db n = some u) :
    u ∈ db :=
  List.mem_of_find?_eq_some h

lemma findById_saveUser (w : UserRec) :
    ∀ db : DB, (∃ v ∈ db, v.id = w.id) → findById (saveUser db w) w.id = some w := by
  intro db
  induction db with
  | nil => intro h; simp at h
  | cons v t ih =>
      intro h
      by_cases hv : v.id = w.id
      · simp [saveUser, findById, hv, List.find?_cons]
      · have ht : ∃ x ∈ t, x.id = w.id := by
          rcases h with ⟨x, hx, hid⟩
          rcases List.mem_cons.mp hx with rfl | hx'
          · exact absurd hid hv
          · exact ⟨x, hx', hid⟩
        have htail := ih ht
        simpa [saveUser, findById, hv, List.find?_cons] using htail

lemma saveUser_saveUser (db : DB) (w : UserRec) :
    saveUser (saveUser db w) w = saveUser db w := by
  simp only [saveUser, List.map_map]
  refine List.map_congr_left ?_
  intro a _
  by_cases ha : a.id = w.id <;> simp [Function.comp, ha]

lemma find?_cons_userrec (p : UserRec → Bool) (x : UserRec) (l : List UserRec) :
    List.find? p (x :: l) = if p x then some x else List.find? p l := by
  by_cases h : p x = true
  · rw [List.find?_cons_of_pos _ h, if_pos h]
  · rw [List.find?_cons_of_neg _ h, if_neg h]

lemma findByName_saveUser (w : UserRec) :
    ∀ (db : DB) (u : UserRec) (n : String),
      findByName db n = some u → w.id = u.id → w.name = n →
      findByName (saveUser db w) n = some w := by
  intro db
  induction db with
  | nil => intro u n h _ _; simp [findByName] at h
  | cons v t ih =>
      intro u n h hid hname
      have hcons : findByName (v :: t) n =
          if v.name == n then some v else findByName t n :=
        find?_cons_userrec _ v t
      have hsucons : saveUser (v :: t) w =
          (if v.id = w.id then w else v) :: saveUser t w := rfl
      by_cases hvw : v.id = w.id
      · rw [hsucons, if_pos hvw]
        have hcons2 : findByName (w :: saveUser t w) n =
            if w.name == n then some w else findByName (saveUser t w) n :=
          find?_cons_userrec _ w _
        rw [hcons2, if_pos (by simp [hname])]
      · rw [hsucons, if_neg hvw]
        have hcons2 : findByName (v :: saveUser t w) n =
            if v.name == n then some v else findByName (saveUser t w) n :=
          find?_cons_userrec _ v _
        by_cases hv : v.name = n
        · rw [hcons, if_pos (by simp [hv])] at h
          have huv : v = u := Option.some.inj h
          have : v.id = w.id := by rw [huv]; exact hid.symm
          exact absurd this hvw
        · rw [hcons, if_neg (by simp [hv])] at h
          rw [hcons2, if_neg (by simp [hv])]
          exact ih u n h hid hname

/-- Concrete account used by the concrete-input theorems: id 1, password
`hunter2` hashed with bcrypt salt 3, no session yet. -/
def sampleUser : UserRec :=
  { id := 1, name := "alice", email := "alice@example.com",
    passwordHash := bcryptHash (.raw "hunter2") 3, role := "user" }

/-- One-account database used by the concrete-input theorems. -/
def sampleDB : DB := [sampleUser]

lemma findByName_name {db : DB} {n : String} {u : UserRec}
    (h : findByName db n = some u) : u.name = n := by
  have := List.find?_some h
  simpa using this

lemma verify_refresh_ok (id t now : Nat) (h : now < t + 7 * 24 * 60 * 60) :
    jwtVerify (generateRefreshToken id t) refreshTokenSecret now = .ok id := by
  have h' : ¬ (t + 604800 ≤ now) := by omega
  simp [generateRefreshToken, jwtSign, jwtVerify, h']

lemma refreshToken_beq_false (id t1 t2 : Nat) (h : t1 ≠ t2) :
    (generateRefreshToken id t1 == generateRefreshToken id t2) = false := by
  simp [generateRefreshToken, jwtSign]
  omega

lemma refresh_rotates (db : DB) (w : UserRec) (t0 s0 now salt : Nat)
    (hf : findById db w.id = some w)
    (hstored : w.refreshToken = some (bcryptHash (generateRefreshToken w.id t0) s0))
    (hexp : now < t0 + 7 * 24 * 60 * 60) :
    refreshAccessToken db (some (generateRefreshToken w.id t0)) now salt =
      (.ok w.id w.name w.email w.role (generateAccessToken w.id now)
        (generateRefreshToken w.id now),
       saveUser db
         { w with refreshToken := some (bcryptHash (generateRefreshToken w.id now) salt) }) := by
  have hver := verify_refresh_ok w.id t0 now hexp
  simp [refreshAccessToken, hver, hf, hstored, bcryptHash, bcryptCompare]

lemma refresh_reuse (db : DB) (w : UserRec) (tok : Val) (now salt : Nat)
    (hf : findById db w.id = some w)
    (hok : jwtVerify tok refreshTokenSecret now = .ok w.id)
    (hsv : Val) (hs : w.refreshToken = some hsv)
    (hcmp : bcryptCompare tok hsv = false) :
    refreshAccessToken db (some tok) now salt =
      (.reuseDetected, saveUser db { w with refreshToken := some (.raw "") }) := by
  simp [refreshAccessToken, hok, hf, hs, hcmp]

/-! ## Claim theorems -/

/-- C7: access tokens and refresh tokens are signed with two distinct
secret keys, so for every subject id a token produced by the access-token
generator fails refresh-side verification as invalid, and a token
produced by the refresh-token generator fails access-side verification as
invalid, at every verification time. -/
theorem C7_key_separation (id now now' : Nat) :
    jwtVerify (generateAccessToken id now) refreshTokenSecret now' =
      .error .invalid ∧
    jwtVerify (generateRefreshToken id now) jwtSecret now' = .error .invalid := by
  constructor <;>
    simp [jwtVerify, generateAccessToken, generateRefreshToken, jwtSign,
      jwtSecret, refreshTokenSecret]

/-- C10: for every state, a login naming a username that matches no
account and a login naming an existing account with a wrong password fail
identically — both answer status 401 with message
'Invalid username or password' — and neither modifies the store. -/
theorem C10_login_failure_indistinguishable
    (db : DB) (n1 pw1 n2 pw2 : String) (u : UserRec)
    (now1 salt1 now2 salt2 : Nat)
    (hv1 : validateLogin n1 pw1 = true)
    (hv2 : validateLogin n2 pw2 = true)
    (h1 : findByName db n1 = none)
    (h2 : findByName db n2 = some u)
    (hpw : u.matchPassword pw2 = false) :
    (loginUser db n1 pw1 now1 salt1).1 =
      .failure 401 "Invalid username or password" ∧
    (loginUser db n2 pw2 now2 salt2).1 = (loginUser db n1 pw1 now1 salt1).1 ∧
    (loginUser db n1 pw1 now1 salt1).2 = db ∧
    (loginUser db n2 pw2 now2 salt2).2 = db := by
  refine ⟨?_, ?_, ?_, ?_⟩ <;> simp [loginUser, hv1, hv2, h1, h2, hpw]

/-- C10 witness: concrete instance — unknown username `bob` versus the
existing `alice` with a wrong password. -/
theorem C10_login_failure_indistinguishable_witness :
    (loginUser sampleDB "bob" "pw" 0 0).1 =
      .failure 401 "Invalid username or password" ∧
    (loginUser sampleDB "alice" "wrong" 0 0).1 =
      (loginUser sampleDB "bob" "pw" 0 0).1 ∧
    (loginUser sampleDB "bob" "pw" 0 0).2 = sampleDB ∧
    (loginUser sampleDB "alice" "wrong" 0 0).2 = sampleDB :=
  C10_login_failure_indistinguishable sampleDB "bob" "pw" "alice" "wrong"
    sampleUser 0 0 0 0 (by decide) (by decide) (by decide) (by decide) (by decide)

/-- C6: a refresh call presenting no cookie, or presenting a token whose
signature does not verify, fails with the Unauthorized error kind of the
specification's taxonomy and leaves the store untouched. -/
theorem C6_refresh_frame_on_unattributable
    (db : DB) (now salt : Nat) (tok : Val)
    (hbad : jwtVerify tok refreshTokenSecret now = .error .invalid) :
    refreshAccessToken db none now salt = (.noToken, db) ∧
    refreshErrKind .noToken = some .unauthorized ∧
    refreshAccessToken db (some tok) now salt = (.invalidToken, db) ∧
    refreshErrKind .invalidToken = some .unauthorized := by
  refine ⟨rfl, rfl, ?_, rfl⟩
  simp [refreshAccessToken, hbad]

/-- C6 witness: concrete instance with a garbled token. -/
theorem C6_refresh_frame_on_unattributable_witness :
    refreshAccessToken sampleDB none 0 0 = (.noToken, sampleDB) ∧
    refreshErrKind .noToken = some .unauthorized ∧
    refreshAccessToken sampleDB (some (.raw "garbled")) 0 0 =
      (.invalidToken, sampleDB) ∧
    refreshErrKind .invalidToken = some .unauthorized :=
  C6_refresh_frame_on_unattributable sampleDB 0 0 (.raw "garbled") rfl

/-- C5: logout is total and idempotent — every call answers 204 (valid,
expired, garbled or absent token), a second call with the same cookie
leaves the state produced by the first, and when the token verifies and
the subject exists the subject's slot is overwritten with the empty
string. -/
theorem C5_logout_idempotent_total (db : DB) (cookie : Option Val) (now : Nat) :
    (logoutUser db cookie now).1 = 204 ∧
    (logoutUser (logoutUser db cookie now).2 cookie now).2 =
      (logoutUser db cookie now).2 ∧
    (∀ rt uid u, cookie = some rt →
      jwtVerify rt refreshTokenSecret now = .ok uid →
      findById db uid = some u →
      findById (logoutUser db cookie now).2 uid =
        some { u with refreshToken := some (.raw "") }) := by
  refine ⟨?_, ?_, ?_⟩
  · cases cookie with
    | none => rfl
    | some rt =>
        cases hv : jwtVerify rt refreshTokenSecret now with
        | error e => simp [logoutUser, hv]
        | ok uid =>
            cases hf : findById db uid with
            | none => simp [logoutUser, hv, hf]
            | some u => simp [logoutUser, hv, hf]
  · cases cookie with
    | none => rfl
    | some rt =>
        cases hv : jwtVerify rt refreshTokenSecret now with
        | error e => simp [logoutUser, hv]
        | ok uid =>
            cases hf : findById db uid with
            | none => simp [logoutUser, hv, hf]
            | some u =>
                have hid : u.id = uid := findById_id hf
                have hmem : u ∈ db := findById_mem hf
                have hsave :
                    findById (saveUser db { u with refreshToken := some (.raw "") })
                        ({ u with refreshToken := some (Val.raw "") } : UserRec).id =
                      some { u with refreshToken := some (.raw "") } :=
                  findById_saveUser _ db ⟨u, hmem, rfl⟩
                have hf2 :
                    findById (saveUser db { u with refreshToken := some (.raw "") }) uid =
                      some { u with refreshToken := some (.raw "") } := by
                  rw [← hid]; exact hsave
                simp [logoutUser, hv, hf, hf2]
                exact saveUser_saveUser db { u with refreshToken := some (.raw "") }
  · intro rt uid u hc hv hf
    subst hc
    have hid : u.id = uid := findById_id hf
    have hmem : u ∈ db := findById_mem hf
    have hsave :
        findById (saveUser db { u with refreshToken := some (.raw "") })
            ({ u with refreshToken := some (Val.raw "") } : UserRec).id =
          some { u with refreshToken := some (.raw "") } :=
      findById_saveUser _ db ⟨u, hmem, rfl⟩
    simp [logoutUser, hv, hf]
    rw [← hid]
    exact hsave

/-- C5 witness: concrete instance — logout after a login clears the
slot, answers 204, and a second logout changes nothing. -/
theorem C5_logout_idempotent_total_witness :
    (logoutUser (loginUser sampleDB "alice" "hunter2" 100 5).2
        (some (generateRefreshToken 1 100)) 200).1 = 204 ∧
    findById (logoutUser (loginUser sampleDB "alice" "hunter2" 100 5).2
        (some (generateRefreshToken 1 100)) 200).2 1 =
      some { sampleUser with refreshToken := some (.raw "") } ∧
    (logoutUser (logoutUser (loginUser sampleDB "alice" "hunter2" 100 5).2
          (some (generateRefreshToken 1 100)) 200).2
        (some (generateRefreshToken 1 100)) 200).2 =
      (logoutUser (loginUser sampleDB "alice" "hunter2" 100 5).2
        (some (generateRefreshToken 1 100)) 200).2 := by
  have h := C5_logout_idempotent_total (loginUser sampleDB "alice" "hunter2" 100 5).2
      (some (generateRefreshToken 1 100)) 200
  refine ⟨h.1, ?_, h.2.1⟩
  exact h.2.2 (generateRefreshToken 1 100) 1
    { sampleUser with refreshToken := some (bcryptHash (generateRefreshToken 1 100) 5) }
    rfl rfl (by decide)

/-- C9: for every state, no document produced by the list-all-users or
get-user-by-id read paths contains a `passwordHash`, `refreshToken`, or
`refreshTokenHash` field (the declared digest field is `select: false`
and both handlers additionally exclude `passwordHash` and
`refreshToken`). -/
theorem C9_reads_hide_secret_fields (db : DB) (doc : List (String × Val))
    (kv : String × Val)
    (hdoc : doc ∈ getAllUsers db ∨ ∃ uid, getUserById db uid = some doc)
    (hkv : kv ∈ doc) :
    kv.1 ≠ "passwordHash" ∧ kv.1 ≠ "refreshToken" ∧ kv.1 ≠ "refreshTokenHash" := by
  have hsel : ∃ u : UserRec,
      doc = applySelect (userDoc u) ["passwordHash", "refreshToken"] [] := by
    rcases hdoc with h | ⟨uid, h⟩
    · rcases List.mem_map.mp h with ⟨u, _, hu⟩
      exact ⟨u, hu.symm⟩
    · rcases Option.map_eq_some'.mp h with ⟨u, _, hu⟩
      exact ⟨u, hu.symm⟩
  rcases hsel with ⟨u, rfl⟩
  have hpred := (List.mem_filter.mp hkv).2
  simp [selectFalseFields] at hpred
  exact ⟨hpred.1.1, hpred.1.2, hpred.2⟩

/-- C9 witness: concrete instance — the `name` field of the one document
listed for the sample database. -/
theorem C9_reads_hide_secret_fields_witness :
    ("name", Val.raw "alice").1 ≠ "passwordHash" ∧
    ("name", Val.raw "alice").1 ≠ "refreshToken" ∧
    ("name", Val.raw "alice").1 ≠ "refreshTokenHash" := by
  refine C9_reads_hide_secret_fields sampleDB
      (applySelect (userDoc sampleUser) ["passwordHash", "refreshToken"] [])
      ("name", Val.raw "alice") (Or.inl ?_) ?_
  · decide
  · decide

/-- C3 counterexample: a refresh presenting a 7-day-expired token whose
digest still matches the stored slot answers the expired error, but the
account's store slot is NOT cleared before the error is returned: the
state comes back unchanged and the slot still holds the matching digest
of the presented token. -/
theorem C3_counterexample :
    refreshAccessToken (loginUser sampleDB "alice" "hunter2" 100 5).2
        (some (generateRefreshToken 1 100)) 604900 6 =
      (.expiredToken, (loginUser sampleDB "alice" "hunter2" 100 5).2) ∧
    findById (loginUser sampleDB "alice" "hunter2" 100 5).2 1 =
      some { sampleUser with
              refreshToken := some (bcryptHash (generateRefreshToken 1 100) 5) } ∧
    some (bcryptHash (generateRefreshToken 1 100) 5) ≠ some (Val.raw "") ∧
    bcryptCompare (generateRefreshToken 1 100)
        (bcryptHash (generateRefreshToken 1 100) 5) = true := by
  exact ⟨rfl, by decide, by decide, by decide⟩

/-- C3 amended: for every refresh call presenting a token signed with the
refresh key whose expiry has passed, the call fails with the
SessionExpired error kind — never Forbidden-ReuseDetected, even if the
digest still matches — and clears the refresh cookie, but the account's
store slot is left unchanged (the code clears only the cookie, not the
stored digest). -/
theorem C3_expired_refresh (db : DB) (tok : Val) (now salt : Nat)
    (hexp : jwtVerify tok refreshTokenSecret now = .error .tokenExpired) :
    refreshAccessToken db (some tok) now salt = (.expiredToken, db) ∧
    refreshErrKind .expiredToken = some .sessionExpired ∧
    refreshErrKind .expiredToken ≠ some .forbiddenReuse ∧
    refreshClearsCookie .expiredToken = true := by
  refine ⟨?_, rfl, by decide, rfl⟩
  simp [refreshAccessToken, hexp]

/-- C3 witness: concrete instance — a refresh token issued at time 0
presented exactly at its 7-day expiry. -/
theorem C3_expired_refresh_witness :
    refreshAccessToken sampleDB (some (generateRefreshToken 1 0)) 604800 0 =
      (.expiredToken, sampleDB) ∧
    refreshErrKind .expiredToken = some .sessionExpired ∧
    refreshErrKind .expiredToken ≠ some .forbiddenReuse ∧
    refreshClearsCookie .expiredToken = true :=
  C3_expired_refresh sampleDB (generateRefreshToken 1 0) 604800 0 rfl

/-- C8 counterexample: the `protect` middleware answers an expired (but
correctly signed) access token and a forged token with one identical
merged 401 response, so the two error kinds are not distinguishable
through it — even though `jwt.verify` itself reports them apart. -/
theorem C8_counterexample :
    protect sampleDB (some (generateAccessToken 1 0)) 1000 =
      protect sampleDB (some (.raw "forged")) 1000 ∧
    protect sampleDB (some (generateAccessToken 1 0)) 1000 = .verifyFailed ∧
    protectStatus .verifyFailed = 401 ∧
    protectMessage .verifyFailed =
      some "Not authorized, token invalid or expired" ∧
    jwtVerify (generateAccessToken 1 0) jwtSecret 1000 = .error .tokenExpired ∧
    jwtVerify (.raw "forged") jwtSecret 1000 = .error .invalid :=
  ⟨rfl, rfl, rfl, rfl, rfl, rfl⟩

/-- C8 amended: token verification itself distinguishes the two error
kinds (a correctly signed token past expiry yields the expired error, a
malformed token the invalid error), and the refresh handler surfaces
them as distinct responses (different message and expired flag); the
`protect` middleware, however, collapses every verification failure of
an access token into the single merged 401 response. -/
theorem C8_error_kind_surfacing (db : DB) (now salt id t : Nat) :
    (t + 15 * 60 ≤ now →
      jwtVerify (generateAccessToken id t) jwtSecret now = .error .tokenExpired) ∧
    (∀ s, jwtVerify (.raw s) jwtSecret now = .error .invalid) ∧
    VerifyErr.tokenExpired ≠ VerifyErr.invalid ∧
    (∀ tok, jwtVerify tok refreshTokenSecret now = .error .tokenExpired →
      (refreshAccessToken db (some tok) now salt).1 = .expiredToken) ∧
    (∀ tok, jwtVerify tok refreshTokenSecret now = .error .invalid →
      (refreshAccessToken db (some tok) now salt).1 = .invalidToken) ∧
    refreshMessage .expiredToken ≠ refreshMessage .invalidToken ∧
    refreshExpiredFlag .expiredToken ≠ refreshExpiredFlag .invalidToken ∧
    (∀ tok e, jwtVerify tok jwtSecret now = .error e →
      protect db (some tok) now = .verifyFailed) := by
  refine ⟨?_, ?_, by decide, ?_, ?_, by decide, by decide, ?_⟩
  · intro h
    simp [generateAccessToken, jwtSign, jwtVerify, h]
  · intro s; rfl
  · intro tok h; simp [refreshAccessToken, h]
  · intro tok h; simp [refreshAccessToken, h]
  · intro tok e h; simp [protect, h]

/-- C8 witness: concrete instances of the four surfacing facts. -/
theorem C8_error_kind_surfacing_witness :
    jwtVerify (generateAccessToken 1 0) jwtSecret 1000 = .error .tokenExpired ∧
    (refreshAccessToken sampleDB (some (generateRefreshToken 1 0)) 604800 0).1 =
      .expiredToken ∧
    (refreshAccessToken sampleDB (some (.raw "junk")) 604800 0).1 =
      .invalidToken ∧
    protect sampleDB (some (.raw "junk")) 1000 = .verifyFailed := by
  obtain ⟨-, -, -, h4, h5, -, -, -⟩ :=
    C8_error_kind_surfacing sampleDB 604800 0 1 0
  obtain ⟨g1, -, -, -, -, -, -, g8⟩ :=
    C8_error_kind_surfacing sampleDB 1000 0 1 0
  exact ⟨g1 (by decide), h4 _ rfl, h5 _ rfl, g8 _ .invalid rfl⟩

/-- C2 counterexample: login at time 100, rotate with RT1 at 200
(success), replay RT1 at 300 (reuse detected, slot cleared): the final
refresh presenting RT2 at 400 does NOT succeed — reuse detection
terminated the whole session, so the claimed third successful refresh
with RT2 fails as reuse too. -/
theorem C2_counterexample :
    (refreshAccessToken (loginUser sampleDB "alice" "hunter2" 100 5).2
        (some (generateRefreshToken 1 100)) 200 6).1 =
      .ok 1 "alice" "alice@example.com" "user"
        (generateAccessToken 1 200) (generateRefreshToken 1 200) ∧
    (refreshAccessToken (refreshAccessToken
          (loginUser sampleDB "alice" "hunter2" 100 5).2
          (some (generateRefreshToken 1 100)) 200 6).2
        (some (generateRefreshToken 1 100)) 300 7).1 = .reuseDetected ∧
    (refreshAccessToken (refreshAccessToken (refreshAccessToken
          (loginUser sampleDB "alice" "hunter2" 100 5).2
          (some (generateRefreshToken 1 100)) 200 6).2
        (some (generateRefreshToken 1 100)) 300 7).2
        (some (generateRefreshToken 1 200)) 400 8).1 = .reuseDetected := by
  exact ⟨by decide, by decide, by decide⟩

/-- C2 amended: after login returns (AT1, RT1), a refresh presenting RT1
succeeds and returns (AT2, RT2); a refresh presenting RT2 issued from
that state (before any replay) succeeds; a second refresh presenting RT1
fails as reuse detected and terminates the session; and after that
replay, a refresh presenting RT2 also fails as reuse (the slot was
cleared, forcing full re-login).  Time hypotheses: the two issuance
times differ (tokens carry second-granularity timestamps) and each token
is presented before its 7-day expiry. -/
theorem C2_rotation_scenario
    (db : DB) (u : UserRec) (username pw : String)
    (t1 s1 t2 s2 t3 s3 t4 s4 : Nat)
    (hval : validateLogin username pw = true)
    (hfind : findByName db username = some u)
    (hpw : u.matchPassword pw = true)
    (ht2 : t2 < t1 + 7 * 24 * 60 * 60)
    (ht12 : t1 ≠ t2)
    (ht3 : t3 < t1 + 7 * 24 * 60 * 60)
    (ht4 : t4 < t2 + 7 * 24 * 60 * 60) :
    ∃ st1 st2 st3 : DB,
      loginUser db username pw t1 s1 =
        (.ok u.id u.name u.email u.role (generateAccessToken u.id t1)
          (generateRefreshToken u.id t1), st1) ∧
      refreshAccessToken st1 (some (generateRefreshToken u.id t1)) t2 s2 =
        (.ok u.id u.name u.email u.role (generateAccessToken u.id t2)
          (generateRefreshToken u.id t2), st2) ∧
      (refreshAccessToken st2 (some (generateRefreshToken u.id t2)) t4 s4).1 =
        .ok u.id u.name u.email u.role (generateAccessToken u.id t4)
          (generateRefreshToken u.id t4) ∧
      refreshAccessToken st2 (some (generateRefreshToken u.id t1)) t3 s3 =
        (.reuseDetected, st3) ∧
      (refreshAccessToken st3 (some (generateRefreshToken u.id t2)) t4 s4).1 =
        .reuseDetected := by
  have hmem : u ∈ db := findByName_mem hfind
  have h1 : loginUser db username pw t1 s1 =
      (.ok u.id u.name u.email u.role (generateAccessToken u.id t1)
        (generateRefreshToken u.id t1),
       saveUser db
         { u with refreshToken := some (bcryptHash (generateRefreshToken u.id t1) s1) }) := by
    simp [loginUser, hval, hfind, hpw]
  have hf1 : findById
      (saveUser db
        { u with refreshToken := some (bcryptHash (generateRefreshToken u.id t1) s1) })
      u.id =
      some { u with refreshToken := some (bcryptHash (generateRefreshToken u.id t1) s1) } :=
    findById_saveUser _ db ⟨u, hmem, rfl⟩
  have h2 := refresh_rotates
      (saveUser db
        { u with refreshToken := some (bcryptHash (generateRefreshToken u.id t1) s1) })
      { u with refreshToken := some (bcryptHash (generateRefreshToken u.id t1) s1) }
      t1 s1 t2 s2 hf1 rfl ht2
  have hf2 : findById
      (saveUser
        (saveUser db
          { u with refreshToken := some (bcryptHash (generateRefreshToken u.id t1) s1) })
        { u with refreshToken := some (bcryptHash (generateRefreshToken u.id t2) s2) })
      u.id =
      some { u with refreshToken := some (bcryptHash (generateRefreshToken u.id t2) s2) } :=
    findById_saveUser _ _
      ⟨{ u with refreshToken := some (bcryptHash (generateRefreshToken u.id t1) s1) },
        findById_mem hf1, rfl⟩
  have h3 := refresh_rotates
      (saveUser
        (saveUser db
          { u with refreshToken := some (bcryptHash (generateRefreshToken u.id t1) s1) })
        { u with refreshToken := some (bcryptHash (generateRefreshToken u.id t2) s2) })
      { u with refreshToken := some (bcryptHash (generateRefreshToken u.id t2) s2) }
      t2 s2 t4 s4 hf2 rfl ht4
  have hcmp : bcryptCompare (generateRefreshToken u.id t1)
      (bcryptHash (generateRefreshToken u.id t2) s2) = false := by
    simpa [bcryptCompare, bcryptHash] using refreshToken_beq_false u.id t1 t2 ht12
  have h4 := refresh_reuse
      (saveUser
        (saveUser db
          { u with refreshToken := some (bcryptHash (generateRefreshToken u.id t1) s1) })
        { u with refreshToken := some (bcryptHash (generateRefreshToken u.id t2) s2) })
      { u with refreshToken := some (bcryptHash (generateRefreshToken u.id t2) s2) }
      (generateRefreshToken u.id t1) t3 s3 hf2
      (verify_refresh_ok u.id t1 t3 ht3)
      (bcryptHash (generateRefreshToken u.id t2) s2) rfl hcmp
  have hf3 : findById
      (saveUser
        (saveUser
          (saveUser db
            { u with refreshToken := some (bcryptHash (generateRefreshToken u.id t1) s1) })
          { u with refreshToken := some (bcryptHash (generateRefreshToken u.id t2) s2) })
        { u with refreshToken := some (Val.raw "") })
      u.id = some { u with refreshToken := some (Val.raw "") } :=
    findById_saveUser _ _
      ⟨{ u with refreshToken := some (bcryptHash (generateRefreshToken u.id t2) s2) },
        findById_mem hf2, rfl⟩
  have h5 := refresh_reuse
      (saveUser
        (saveUser
          (saveUser db
            { u with refreshToken := some (bcryptHash (generateRefreshToken u.id t1) s1) })
          { u with refreshToken := some (bcryptHash (generateRefreshToken u.id t2) s2) })
        { u with refreshToken := some (Val.raw "") })
      { u with refreshToken := some (Val.raw "") }
      (generateRefreshToken u.id t2) t4 s4 hf3
      (verify_refresh_ok u.id t2 t4 ht4)
      (Val.raw "") rfl (by simp [bcryptCompare])
  exact ⟨_, _, _, h1, h2, by rw [h3], h4, by rw [h5]⟩

/-- C2 witness: concrete instance of the amended rotation scenario. -/
theorem C2_rotation_scenario_witness :
    ∃ st1 st2 st3 : DB,
      loginUser sampleDB "alice" "hunter2" 100 5 =
        (.ok 1 "alice" "alice@example.com" "user" (generateAccessToken 1 100)
          (generateRefreshToken 1 100), st1) ∧
      refreshAccessToken st1 (some (generateRefreshToken 1 100)) 200 6 =
        (.ok 1 "alice" "alice@example.com" "user" (generateAccessToken 1 200)
          (generateRefreshToken 1 200), st2) ∧
      (refreshAccessToken st2 (some (generateRefreshToken 1 200)) 400 8).1 =
        .ok 1 "alice" "alice@example.com" "user" (generateAccessToken 1 400)
          (generateRefreshToken 1 400) ∧
      refreshAccessToken st2 (some (generateRefreshToken 1 100)) 300 7 =
        (.reuseDetected, st3) ∧
      (refreshAccessToken st3 (some (generateRefreshToken 1 200)) 400 8).1 =
        .reuseDetected :=
  C2_rotation_scenario sampleDB sampleUser "alice" "hunter2"
    100 5 200 6 300 7 400 8
    (by decide) (by decide) (by decide)
    (by omega) (by omega) (by omega) (by omega)

/-- C4 counterexample: two sequential logins for the same account within
the same second (JWT timestamps have one-second granularity) produce the
identical refresh token, so a refresh presenting the token returned by
the first login still SUCCEEDS after the second login — the first
login's token was not invalidated. -/
theorem C4_counterexample :
    (refreshAccessToken (loginUser (loginUser sampleDB "alice" "hunter2" 100 5).2
          "alice" "hunter2" 100 6).2
        (some (generateRefreshToken 1 100)) 200 7).1 =
      .ok 1 "alice" "alice@example.com" "user"
        (generateAccessToken 1 200) (generateRefreshToken 1 200) := by
  decide

/-- C4 amended: each account has a single refresh-digest slot and every
login overwrites it (never appends): after two sequential logins the
account's record holds exactly the bcrypt digest of the second login's
token.  Provided the two logins occur at distinct issuance seconds, a
refresh presenting the first login's token then fails as reuse detected;
two logins within the same second return the identical token, which
remains valid. -/
theorem C4_single_session
    (db : DB) (u : UserRec) (username pw : String)
    (t1 s1 t2 s2 t3 s3 : Nat)
    (hval : validateLogin username pw = true)
    (hfind : findByName db username = some u)
    (hpw : u.matchPassword pw = true)
    (ht12 : t1 ≠ t2)
    (ht3 : t3 < t1 + 7 * 24 * 60 * 60) :
    findById (loginUser (loginUser db username pw t1 s1).2 username pw t2 s2).2 u.id =
      some { u with refreshToken := some (bcryptHash (generateRefreshToken u.id t2) s2) } ∧
    (refreshAccessToken (loginUser (loginUser db username pw t1 s1).2 username pw t2 s2).2
        (some (generateRefreshToken u.id t1)) t3 s3).1 = .reuseDetected := by
  have hmem : u ∈ db := findByName_mem hfind
  have hname : u.name = username := findByName_name hfind
  have h1 : loginUser db username pw t1 s1 =
      (.ok u.id u.name u.email u.role (generateAccessToken u.id t1)
        (generateRefreshToken u.id t1),
       saveUser db
         { u with refreshToken := some (bcryptHash (generateRefreshToken u.id t1) s1) }) := by
    simp [loginUser, hval, hfind, hpw]
  have hfn1 : findByName
      (saveUser db
        { u with refreshToken := some (bcryptHash (generateRefreshToken u.id t1) s1) })
      username =
      some { u with refreshToken := some (bcryptHash (generateRefreshToken u.id t1) s1) } :=
    findByName_saveUser _ db u username hfind rfl hname
  have hm1 :
      ({ u with refreshToken := some (bcryptHash (generateRefreshToken u.id t1) s1) } :
        UserRec).matchPassword pw = true := hpw
  have h2 : loginUser
      (saveUser db
        { u with refreshToken := some (bcryptHash (generateRefreshToken u.id t1) s1) })
      username pw t2 s2 =
      (.ok u.id u.name u.email u.role (generateAccessToken u.id t2)
        (generateRefreshToken u.id t2),
       saveUser
         (saveUser db
           { u with refreshToken := some (bcryptHash (generateRefreshToken u.id t1) s1) })
         { u with refreshToken := some (bcryptHash (generateRefreshToken u.id t2) s2) }) := by
    simp [loginUser, hval, hfn1, hm1]
  have hf2 : findById
      (saveUser
        (saveUser db
          { u with refreshToken := some (bcryptHash (generateRefreshToken u.id t1) s1) })
        { u with refreshToken := some (bcryptHash (generateRefreshToken u.id t2) s2) })
      u.id =
      some { u with refreshToken := some (bcryptHash (generateRefreshToken u.id t2) s2) } :=
    findById_saveUser _ _
      ⟨{ u with refreshToken := some (bcryptHash (generateRefreshToken u.id t1) s1) },
        findByName_mem hfn1, rfl⟩
  have hcmp : bcryptCompare (generateRefreshToken u.id t1)
      (bcryptHash (generateRefreshToken u.id t2) s2) = false := by
    simpa [bcryptCompare, bcryptHash] using refreshToken_beq_false u.id t1 t2 ht12
  have h4 := refresh_reuse
      (saveUser
        (saveUser db
          { u with refreshToken := some (bcryptHash (generateRefreshToken u.id t1) s1) })
        { u with refreshToken := some (bcryptHash (generateRefreshToken u.id t2) s2) })
      { u with refreshToken := some (bcryptHash (generateRefreshToken u.id t2) s2) }
      (generateRefreshToken u.id t1) t3 s3 hf2
      (verify_refresh_ok u.id t1 t3 ht3)
      (bcryptHash (generateRefreshToken u.id t2) s2) rfl hcmp
  constructor
  · rw [h1]
    dsimp only
    rw [h2]
    dsimp only
    exact hf2
  · rw [h1]
    dsimp only
    rw [h2]
    dsimp only
    rw [h4]

/-- C4 witness: concrete instance of the amended single-session claim. -/
theorem C4_single_session_witness :
    findById (loginUser (loginUser sampleDB "alice" "hunter2" 100 5).2
        "alice" "hunter2" 200 6).2 1 =
      some { sampleUser with
              refreshToken := some (bcryptHash (generateRefreshToken 1 200) 6) } ∧
    (refreshAccessToken (loginUser (loginUser sampleDB "alice" "hunter2" 100 5).2
          "alice" "hunter2" 200 6).2
        (some (generateRefreshToken 1 100)) 300 7).1 = .reuseDetected :=
  C4_single_session sampleDB sampleUser "alice" "hunter2" 100 5 200 6 300 7
    (by decide) (by decide) (by decide) (by omega) (by omega)

/-- C1: the repository keeps two inconsistent digest schemes over two
different stored fields.  After a login (which stores
`bcrypt.hash(token)` in the undeclared field `refreshToken`), the User
model's own declared check `isRefreshTokenValid` — which recomputes a
SHA-256 digest against the schema field `refreshTokenHash` — returns
FALSE for the very token just stored, while the controller's bcrypt
comparison returns true; the model's declared `setRefreshToken` /
`isRefreshTokenValid` pair round-trips only with itself.  The claimed
single consistent digest scheme over one stored field does not hold
across the store's set and check sites. -/
theorem C1_digest_scheme_mismatch :
    (loginUser sampleDB "alice" "hunter2" 100 5).1 =
      .ok 1 "alice" "alice@example.com" "user"
        (generateAccessToken 1 100) (generateRefreshToken 1 100) ∧
    findById (loginUser sampleDB "alice" "hunter2" 100 5).2 1 =
      some { sampleUser with
              refreshToken := some (bcryptHash (generateRefreshToken 1 100) 5) } ∧
    ((findById (loginUser sampleDB "alice" "hunter2" 100 5).2 1).map
        (fun u => u.isRefreshTokenValid (generateRefreshToken 1 100))) =
      some false ∧
    bcryptCompare (generateRefreshToken 1 100)
        (bcryptHash (generateRefreshToken 1 100) 5) = true ∧
    (sampleUser.setRefreshToken (generateRefreshToken 1 100)).isRefreshTokenValid
        (generateRefreshToken 1 100) = true ∧
    (sampleUser.setRefreshToken (generateRefreshToken 1 100)).refreshToken =
      sampleUser.refreshToken := by
  exact ⟨by decide, by decide, by decide, by decide, by decide, by decide⟩

end FocusGps
